import Mathlib

/-!
Shallow embedding of the playback-engine abstraction layer of the IPTV player:
the error taxonomy and classifier (PlayerError.ts), the recovery coordinator
(ErrorRecoveryStrategy in PlayerFactory.ts), the stream-type detection
(PlayerFactory.detectStreamType), and the concrete engines
(AVPlayPlayerImpl, ShakaPlayerImpl, NativePlayerImpl, HLSPlayerImpl).

Numeric modelling: millisecond delays and retry counters are Nat (all values
the code manipulates for them are non-negative integers; Math.floor is the
identity on such values and is noted where it occurs in the source).
Volumes and second-valued times are Rat.
-/

/-! ## Error taxonomy (src/packages/core/src/player/PlayerError.ts) -/

/-- PlayerErrorType from the types package: the seven error kinds. -/
inductive PlayerErrorType
  | network
  | media
  | drm
  | unsupported_format
  | unsupported_audio
  | timeout
  | unknown
  deriving DecidableEq, Repr

/-- PlayerError value: type, code, message, fatal flag.  The optional details
payload carries no information the layer inspects and is omitted. -/
structure PlayerError where
  type : PlayerErrorType
  code : String
  message : String
  fatal : Bool
  deriving DecidableEq, Repr

/-- Recovery verbs returned by getErrorRecoveryStrategy. -/
inductive RecoveryAction
  | retry
  | skip
  | fallback
  | fail
  deriving DecidableEq, Repr

/-- Translation of getErrorRecoveryStrategy (PlayerError.ts, switch on
error.type). -/
def getErrorRecoveryStrategy (e : PlayerError) : RecoveryAction :=
  match e.type with
  | .network => if e.fatal then .fail else .retry
  | .unsupported_audio => .skip
  | .unsupported_format => .fallback
  | .media => if e.fatal then .fail else .retry
  | .drm => .fail
  | .timeout => .retry
  | .unknown => .fail

/-- Translation of isRecoverableError (PlayerError.ts): false when fatal,
otherwise true exactly when the mapped verb is retry, fallback or skip. -/
def isRecoverableError (e : PlayerError) : Bool :=
  if e.fatal then
    false
  else
    match getErrorRecoveryStrategy e with
    | .retry => true
    | .fallback => true
    | .skip => true
    | .fail => false

/-! ## Case-insensitive substring utilities

The source lowercases with String.prototype.toLowerCase and tests substrings
with String.prototype.includes / endsWith.  We model strings by their
character lists; Char.toLower models the ASCII lowercasing the URLs and
error messages exercise. -/

/-- Containment of needle as a contiguous substring of hay, the semantics of
JavaScript includes. -/
def containsSublist (needle : List Char) : List Char → Bool
  | [] => needle.isEmpty
  | h :: t => needle.isPrefixOf (h :: t) || containsSublist needle t

/-- Character list of a string, lowercased. -/
def lowerChars (s : String) : List Char :=
  s.data.map Char.toLower

/-! ## Stream-type detection (PlayerFactory.detectStreamType) -/

/-- Result type of detectStreamType. -/
inductive StreamType
  | hls
  | dash
  | progressive
  | unknown
  deriving DecidableEq, Repr

/-- HLS_EXTENSIONS from PlayerFactory. -/
def HLS_EXTENSIONS : List String := [".m3u8", ".m3u"]

/-- DASH_EXTENSIONS from PlayerFactory. -/
def DASH_EXTENSIONS : List String := [".mpd"]

/-- PROGRESSIVE_EXTENSIONS from PlayerFactory. -/
def PROGRESSIVE_EXTENSIONS : List String := [".mp4", ".webm", ".ogg"]

/-- Translation of PlayerFactory.detectStreamType: lowercase the URL, then
test containment of the extension lists in order (note the source uses
url.includes, a substring test, for all three groups), defaulting to hls. -/
def detectStreamType (streamUrl : String) : StreamType :=
  let url := lowerChars streamUrl
  if HLS_EXTENSIONS.any (fun ext => containsSublist ext.data url) then
    .hls
  else if DASH_EXTENSIONS.any (fun ext => containsSublist ext.data url) then
    .dash
  else if PROGRESSIVE_EXTENSIONS.any (fun ext => containsSublist ext.data url) then
    .progressive
  else
    .hls

/-- Stream-type heuristic as the specification words it: progressive is
decided by an ends-with test rather than containment.  Stated for comparison
with detectStreamType, which is translated from the source. -/
def detectStreamTypeSpec (streamUrl : String) : StreamType :=
  let url := lowerChars streamUrl
  if containsSublist ".m3u8".data url || containsSublist ".m3u".data url then
    .hls
  else if containsSublist ".mpd".data url then
    .dash
  else if ".mp4".data.isSuffixOf url || ".webm".data.isSuffixOf url
      || ".ogg".data.isSuffixOf url then
    .progressive
  else
    .hls

/-- Stream-type heuristic with the amended reading: progressive by substring
containment, matching the source observable behaviour clause for clause. -/
def detectStreamTypeAmended (streamUrl : String) : StreamType :=
  let url := lowerChars streamUrl
  if containsSublist ".m3u8".data url || containsSublist ".m3u".data url then
    .hls
  else if containsSublist ".mpd".data url then
    .dash
  else if containsSublist ".mp4".data url || containsSublist ".webm".data url
      || containsSublist ".ogg".data url then
    .progressive
  else
    .hls

/-! ## DTS fault detection (AVPlayPlayerImpl.isDTSError and the
prepareAsync failure callback of AVPlayPlayerImpl.load) -/

/-- Translation of AVPlayPlayerImpl.isDTSError: lowercase the native failure
message and test the known fault vocabulary by containment. -/
def isDTSError (msg : String) : Bool :=
  let errorMsg := lowerChars msg
  containsSublist "dts".data errorMsg
    || containsSublist "audio codec".data errorMsg
    || containsSublist "unsupported audio".data errorMsg

/-- Structured error built by the prepareAsync failure callback in
AVPlayPlayerImpl.load: DTS-matched failures become unsupported_audio
(non-fatal), every other prepare failure becomes a non-fatal network
manifest-load error carrying the native message. -/
def classifyPrepareFailure (msg : String) : PlayerError :=
  if isDTSError msg then
    { type := .unsupported_audio
      code := "UNSUPPORTED_AUDIO_CODEC"
      message := "DTS audio codec is not supported on this TV"
      fatal := false }
  else
    { type := .network
      code := "MANIFEST_LOAD_ERROR"
      message := msg
      fatal := false }

/-! ## Recovery coordinator (ErrorRecoveryStrategy in PlayerFactory.ts) -/

/-- RetryConfig from the types package.  All numeric fields are used as
non-negative integer milliseconds / counts. -/
structure RetryConfig where
  maxAttempts : Nat
  initialDelayMs : Nat
  maxDelayMs : Nat
  backoffMultiplier : Nat
  deriving DecidableEq, Repr

/-- DEFAULT_CONFIG of ErrorRecoveryStrategy. -/
def DEFAULT_CONFIG : RetryConfig :=
  { maxAttempts := 3
    initialDelayMs := 1000
    maxDelayMs := 10000
    backoffMultiplier := 2 }

/-- RetryState tracked per context: attempts, lastAttempt timestamp,
nextDelay. -/
structure RetryState where
  attempts : Nat
  lastAttempt : Nat
  nextDelay : Nat
  deriving DecidableEq, Repr

/-- The retryStates map of a coordinator instance, keyed by context id. -/
def RetryMap : Type := String → Option RetryState

/-- Empty retryStates map (a fresh coordinator). -/
def emptyRetryMap : RetryMap := fun _ => none

/-- Map after this.retryStates.set(context, s). -/
def mapInsert (m : RetryMap) (c : String) (s : RetryState) : RetryMap :=
  fun x => if x = c then some s else m x

/-- Map after this.retryStates.delete(context), the body of clearRetryState. -/
def mapErase (m : RetryMap) (c : String) : RetryMap :=
  fun x => if x = c then none else m x

/-- RecoveryResult returned by recover. -/
structure RecoveryResult where
  success : Bool
  action : RecoveryAction
  message : String
  nextAttempt : Option Nat
  deriving DecidableEq, Repr

/-- Observable outcome of one recover call: the returned RecoveryResult, the
retryStates map afterwards, the delay passed to sleep if any, and whether
retryFn was invoked. -/
structure RecoverOutcome where
  result : RecoveryResult
  map : RetryMap
  requestedDelay : Option Nat
  invokedRetry : Bool

/-- Fresh RetryState created lazily by getOrCreateRetryState. -/
def freshRetryState (cfg : RetryConfig) : RetryState :=
  { attempts := 0, lastAttempt := 0, nextDelay := cfg.initialDelayMs }

/-- Translation of getOrCreateRetryState: returns the looked-up or freshly
inserted state together with the (possibly extended) map. -/
def getOrCreateRetryState (cfg : RetryConfig) (m : RetryMap) (c : String) :
    RetryState × RetryMap :=
  match m c with
  | some s => (s, m)
  | none => (freshRetryState cfg, mapInsert m c (freshRetryState cfg))

/-- Translation of retryWithBackoff.  The retryFn outcome is passed in as
the boolean retryOk; now stands for Date.now().  The source computes
nextDelay as Math.floor of delay times the multiplier, which under the
integer modelling is the plain product. -/
def retryWithBackoff (cfg : RetryConfig) (m : RetryMap) (c : String)
    (now : Nat) (retryOk : Bool) : RecoverOutcome :=
  let sm := getOrCreateRetryState cfg m c
  let state := sm.1
  let m0 := sm.2
  if cfg.maxAttempts ≤ state.attempts then
    { result :=
        { success := false
          action := .fail
          message := "Max retry attempts (" ++ toString cfg.maxAttempts ++ ") exceeded"
          nextAttempt := none }
      map := mapErase m0 c
      requestedDelay := none
      invokedRetry := false }
  else
    let delay := min state.nextDelay cfg.maxDelayMs
    let state1 : RetryState :=
      { attempts := state.attempts + 1
        lastAttempt := now
        nextDelay := delay * cfg.backoffMultiplier }
    let m1 := mapInsert m0 c state1
    if retryOk then
      { result :=
          { success := true
            action := .retry
            message := "Retry successful after " ++ toString state1.attempts ++ " attempts"
            nextAttempt := none }
        map := mapErase m1 c
        requestedDelay := some delay
        invokedRetry := true }
    else
      let remainingAttempts := cfg.maxAttempts - state1.attempts
      if 0 < remainingAttempts then
        { result :=
            { success := false
              action := .retry
              message := "Retry failed. " ++ toString remainingAttempts ++ " attempts remaining"
              nextAttempt := some (state1.attempts + 1) }
          map := m1
          requestedDelay := some delay
          invokedRetry := true }
      else
        { result :=
            { success := false
              action := .fail
              message := "All retry attempts exhausted"
              nextAttempt := none }
          map := mapErase m1 c
          requestedDelay := some delay
          invokedRetry := true }

/-- Translation of recover: non-recoverable errors fail immediately without
touching the map; otherwise dispatch on the mapped verb. -/
def recover (cfg : RetryConfig) (m : RetryMap) (e : PlayerError) (c : String)
    (now : Nat) (retryOk : Bool) : RecoverOutcome :=
  if isRecoverableError e = false then
    { result :=
        { success := false
          action := .fail
          message := "Fatal error: " ++ e.message
          nextAttempt := none }
      map := m
      requestedDelay := none
      invokedRetry := false }
  else
    match getErrorRecoveryStrategy e with
    | .retry => retryWithBackoff cfg m c now retryOk
    | .skip =>
        { result :=
            { success := true
              action := .skip
              message := "Skipping problematic content"
              nextAttempt := none }
          map := m
          requestedDelay := none
          invokedRetry := false }
    | .fallback =>
        { result :=
            { success := true
              action := .fallback
              message := "Attempting fallback player"
              nextAttempt := none }
          map := m
          requestedDelay := none
          invokedRetry := false }
    | .fail =>
        { result :=
            { success := false
              action := .fail
              message := "Unrecoverable error: " ++ e.message
              nextAttempt := none }
          map := m
          requestedDelay := none
          invokedRetry := false }

/-- Translation of getAttempts: attempts of the tracked state, defaulting
to zero. -/
def getAttempts (m : RetryMap) (c : String) : Nat :=
  ((m c).map RetryState.attempts).getD 0

/-- Translation of isRetrying: whether the context id is tracked. -/
def isRetrying (m : RetryMap) (c : String) : Bool :=
  (m c).isSome

/-- Operations that mutate a coordinator instance during its lifetime. -/
inductive CoordinatorOp
  | recoverOp (e : PlayerError) (c : String) (now : Nat) (retryOk : Bool)
  | clearAllOp

/-- Effect of one coordinator operation on the retryStates map (clearAll
drops every tracked context). -/
def runOp (cfg : RetryConfig) (m : RetryMap) : CoordinatorOp → RetryMap
  | .recoverOp e c now retryOk => (recover cfg m e c now retryOk).map
  | .clearAllOp => fun _ => none

/-- RetryStates map of a coordinator after a sequence of operations,
starting from the fresh coordinator. -/
def runOps (cfg : RetryConfig) (ops : List CoordinatorOp) : RetryMap :=
  ops.foldl (runOp cfg) emptyRetryMap

/-- Delays requested by n successive recover calls on one context whose
retryFn always fails. -/
def recoverTraceDelays (cfg : RetryConfig) (e : PlayerError) (c : String) :
    Nat → RetryMap → List (Option Nat)
  | 0, _ => []
  | n + 1, m =>
      let out := recover cfg m e c 0 false
      out.requestedDelay :: recoverTraceDelays cfg e c n out.map

/-- RetryStates map after n successive recover calls on one context whose
retryFn always fails. -/
def mapAfterFailures (cfg : RetryConfig) (e : PlayerError) (c : String)
    (m : RetryMap) : Nat → RetryMap
  | 0 => m
  | n + 1 => (recover cfg (mapAfterFailures cfg e c m n) e c 0 false).map

/-! ## Engine data model (IVideoPlayer contract and concrete engines) -/

/-- PlayerState of the contract: the per-engine lifecycle state. -/
inductive PlayerState
  | idle
  | loading
  | playing
  | paused
  | buffering
  | error
  | ended
  deriving DecidableEq, Repr

/-- Native AVPlay state machine states (webapis.avplay.getState). -/
inductive AVPlayState
  | NONE
  | IDLE
  | READY
  | PLAYING
  | PAUSED
  | ERROR
  deriving DecidableEq, Repr

/-- Printable name of a native AVPlay state, used in error messages. -/
def avplayStateName : AVPlayState → String
  | .NONE => "NONE"
  | .IDLE => "IDLE"
  | .READY => "READY"
  | .PLAYING => "PLAYING"
  | .PAUSED => "PAUSED"
  | .ERROR => "ERROR"

/-- Events of the common event catalog that the modelled operations emit.
The source emits volumechange with either a volume payload or a muted
payload; the two payload shapes are separate constructors here. -/
inductive PlayerEvent
  | statechange (state : PlayerState)
  | volumechange (volume : ℚ)
  | volumechangeMuted (muted : Bool)
  | timeupdate (currentTime : ℚ)
  | durationchange (duration : ℚ)
  | buffering (buffering : Bool)
  | qualitychange (qualityId : Option String)
  | ended
  deriving DecidableEq, Repr

/-- Native AVPlay API calls reached by the modelled operations. -/
inductive NativeCall
  | play
  | pause
  | stopCall
  | close
  | openUrl (url : String)
  | prepareAsync
  | seekTo (ms : ℤ)
  | setSelectTrack (kind : String) (trackId : String)
  | setStreamingProperty (key : String) (value : String)
  deriving DecidableEq, Repr

/-- State of one AVPlayPlayerImpl instance.  avplayPresent records whether
this.avplay is a usable native object (calls on a missing object raise and
are caught where the source catches). -/
structure AVPlayEngine where
  initialized : Bool
  avplayPresent : Bool
  native : AVPlayState
  state : PlayerState
  currentTime : ℚ
  duration : ℚ
  volume : ℚ
  muted : Bool
  timeTracking : Bool
  deriving DecidableEq, Repr

deriving instance DecidableEq for Except

/-- Observable outcome of one AVPlay operation: rejection or resolution,
the instance state afterwards, the events emitted, and the native calls
reached, in order. -/
structure AVPlayResult where
  res : Except PlayerError Unit
  engine : AVPlayEngine
  events : List PlayerEvent
  calls : List NativeCall
  deriving DecidableEq, Repr

/-- Error thrown by ensureInitialized in every implementation. -/
def notInitializedError : PlayerError :=
  { type := .unknown
    code := "UNKNOWN_ERROR"
    message := "Not initialized"
    fatal := false }

/-- Error produced when an uncatched native call on a missing avplay object
raises and the surrounding catch block classifies it as a media element
error.  The raw JavaScript TypeError text is abstracted. -/
def nativeCallFailedError : PlayerError :=
  { type := .media
    code := "MEDIA_ELEMENT_ERROR"
    message := "native call failed"
    fatal := false }

/-- Error thrown by AVPlayPlayerImpl.play when the native state admits no
play transition (the thrown Error is caught and reclassified with kind
media, code MEDIA_ELEMENT_ERROR, fatal false). -/
def cannotPlayError (s : AVPlayState) : PlayerError :=
  { type := .media
    code := "MEDIA_ELEMENT_ERROR"
    message := "Cannot play in state: " ++ avplayStateName s
    fatal := false }

/-- Translation of the private setState: mutate and emit statechange only
when the state actually changes. -/
def avplaySetState (e : AVPlayEngine) (s : PlayerState) :
    AVPlayEngine × List PlayerEvent :=
  if e.state = s then (e, [])
  else ({e with state := s}, [.statechange s])

/-- Translation of the private getAVPlayState: this.avplay.getState(), with
the catch-all returning NONE when the native object is missing. -/
def getAVPlayState (e : AVPlayEngine) : AVPlayState :=
  if e.avplayPresent then e.native else .NONE

/-- Translation of AVPlayPlayerImpl.play.  The guard is ensureInitialized;
then the native state is read and the native play call is reached only from
READY or PAUSED.  In the illegal branch the thrown Error lands in the catch
block, which sets the state to error before rethrowing. -/
def avplayPlay (e : AVPlayEngine) : AVPlayResult :=
  if e.initialized = false then
    { res := .error notInitializedError, engine := e, events := [], calls := [] }
  else
    let currentState := getAVPlayState e
    if currentState = .READY ∨ currentState = .PAUSED then
      let e1 := {e with native := .PLAYING}
      let se := avplaySetState e1 .playing
      { res := .ok ()
        engine := {se.1 with timeTracking := true}
        events := se.2
        calls := [.play] }
    else
      let se := avplaySetState e .error
      { res := .error (cannotPlayError currentState)
        engine := se.1
        events := se.2
        calls := [] }

/-- Translation of AVPlayPlayerImpl.pause: outside the native PLAYING state
the body is a silent no-op. -/
def avplayPause (e : AVPlayEngine) : AVPlayResult :=
  if e.initialized = false then
    { res := .error notInitializedError, engine := e, events := [], calls := [] }
  else
    let currentState := getAVPlayState e
    if currentState = .PLAYING then
      let e1 := {e with native := .PAUSED}
      let se := avplaySetState e1 .paused
      { res := .ok ()
        engine := {se.1 with timeTracking := false}
        events := se.2
        calls := [.pause] }
    else
      { res := .ok (), engine := e, events := [], calls := [] }

/-- Translation of AVPlayPlayerImpl.stop: stop time tracking, native stop
and close, reset times, set state idle.  When the native object is missing
the native stop call raises into the catch block. -/
def avplayStop (e : AVPlayEngine) : AVPlayResult :=
  if e.initialized = false then
    { res := .error notInitializedError, engine := e, events := [], calls := [] }
  else if e.avplayPresent then
    let e1 := {e with timeTracking := false, native := .NONE,
                      currentTime := 0, duration := 0}
    let se := avplaySetState e1 .idle
    { res := .ok (), engine := se.1, events := se.2, calls := [.stopCall, .close] }
  else
    { res := .error nativeCallFailedError
      engine := {e with timeTracking := false}
      events := []
      calls := [] }

/-- Translation of AVPlayPlayerImpl.seek: no native-state check; the time is
converted to floored milliseconds and passed straight to the native seekTo. -/
def avplaySeek (e : AVPlayEngine) (timeSeconds : ℚ) : AVPlayResult :=
  if e.initialized = false then
    { res := .error notInitializedError, engine := e, events := [], calls := [] }
  else if e.avplayPresent then
    { res := .ok ()
      engine := {e with currentTime := timeSeconds}
      events := []
      calls := [.seekTo (Int.floor (timeSeconds * 1000))] }
  else
    { res := .error nativeCallFailedError, engine := e, events := [], calls := [] }

/-- Translation of AVPlayPlayerImpl.setVolume: clamp to the unit interval,
store locally (AVPlay volume is not forwarded to hardware) and emit one
volumechange event with the clamped value. -/
def avplaySetVolume (e : AVPlayEngine) (volume : ℚ) : AVPlayResult :=
  if e.initialized = false then
    { res := .error notInitializedError, engine := e, events := [], calls := [] }
  else
    let v := max 0 (min 1 volume)
    { res := .ok ()
      engine := {e with volume := v}
      events := [.volumechange v]
      calls := [] }

/-- Translation of AVPlayPlayerImpl.setMuted: store locally and emit one
volumechange event with the muted payload. -/
def avplaySetMuted (e : AVPlayEngine) (muted : Bool) : AVPlayResult :=
  if e.initialized = false then
    { res := .error notInitializedError, engine := e, events := [], calls := [] }
  else
    { res := .ok ()
      engine := {e with muted := muted}
      events := [.volumechangeMuted muted]
      calls := [] }

/-- Translation of AVPlayPlayerImpl.setAudioTrack: the source has no
ensureInitialized guard; the native call sits in a try block whose catch
ignores every failure, so the operation always resolves. -/
def avplaySetAudioTrack (e : AVPlayEngine) (trackId : String) : AVPlayResult :=
  if e.avplayPresent then
    { res := .ok (), engine := e, events := [],
      calls := [.setSelectTrack "AUDIO" trackId] }
  else
    { res := .ok (), engine := e, events := [], calls := [] }

/-- Translation of AVPlayPlayerImpl.setSubtitleTrack: no guard; none selects
track index -1; failures are swallowed. -/
def avplaySetSubtitleTrack (e : AVPlayEngine) (trackId : Option String) :
    AVPlayResult :=
  if e.avplayPresent then
    { res := .ok (), engine := e, events := [],
      calls := [.setSelectTrack "TEXT" (trackId.getD "-1")] }
  else
    { res := .ok (), engine := e, events := [], calls := [] }

/-- Translation of AVPlayPlayerImpl.enableAdaptiveBitrate: no guard; only
the enabled case reaches the native property call, with failures swallowed. -/
def avplayEnableAdaptiveBitrate (e : AVPlayEngine) (enabled : Bool) :
    AVPlayResult :=
  if enabled ∧ e.avplayPresent then
    { res := .ok (), engine := e, events := [],
      calls := [.setStreamingProperty "ADAPTIVE_INFO" "BITRATES=ADAPTIVE"] }
  else
    { res := .ok (), engine := e, events := [], calls := [] }

/-- Translation of AVPlayPlayerImpl.getState: plain read, no guard. -/
def avplayGetState (e : AVPlayEngine) : PlayerState :=
  e.state

/-- Translation of AVPlayPlayerImpl.getVolume: plain read of the locally
tracked volume, no guard. -/
def avplayGetVolume (e : AVPlayEngine) : ℚ :=
  e.volume

/-- Translation of AVPlayPlayerImpl.destroy: no guard; stops tracking,
closes the native object when it is past IDLE, clears listeners, resets the
initialized flag. -/
def avplayDestroy (e : AVPlayEngine) : AVPlayResult :=
  let currentState := getAVPlayState e
  let needsClose := ¬(currentState = .NONE ∨ currentState = .IDLE)
  { res := .ok ()
    engine := {e with timeTracking := false, initialized := false,
                      native := if needsClose then .NONE else e.native}
    events := []
    calls := if needsClose then [.close] else [] }

/-- Translation of AVPlayPlayerImpl.load.  The asynchronous prepare outcome
is passed in: none for success (with the native duration in milliseconds for
the success callback's updateDuration), or the native failure message.  When
the native object is missing, the open call raises into the catch block,
which sets state error and rejects with a network error. -/
def avplayLoad (e : AVPlayEngine) (streamUrl : String)
    (prepareFailure : Option String) (nativeDurationMs : Nat) : AVPlayResult :=
  if e.initialized = false then
    { res := .error notInitializedError, engine := e, events := [], calls := [] }
  else
    let se1 := avplaySetState e .loading
    let e1 := se1.1
    if e.avplayPresent = false then
      let se2 := avplaySetState e1 .error
      { res := .error
          { type := .network
            code := "NETWORK_ERROR"
            message := "native call failed"
            fatal := false }
        engine := se2.1
        events := se1.2 ++ se2.2
        calls := [] }
    else
      let currentState := getAVPlayState e1
      let closeCalls : List NativeCall :=
        if ¬(currentState = .NONE ∨ currentState = .IDLE) then [.close] else []
      let e2 := {e1 with native := .IDLE}
      let openCalls := closeCalls ++ [.openUrl streamUrl, .prepareAsync]
      match prepareFailure with
      | none =>
          let e3 := {e2 with native := .READY}
          let se2 := avplaySetState e3 .paused
          let d : ℚ := (nativeDurationMs : ℚ) / 1000
          { res := .ok ()
            engine := {se2.1 with duration := d}
            events := se1.2 ++ se2.2 ++ [.durationchange d]
            calls := openCalls }
      | some msg =>
          let se2 := avplaySetState e2 .error
          { res := .error (classifyPrepareFailure msg)
            engine := se2.1
            events := se1.2 ++ se2.2
            calls := openCalls }

/-! ## Shaka engine (src/packages/core/src/player/implementations/ShakaPlayerImpl.ts)

Only the contract surface the claims exercise is modelled: the
ensureInitialized guard, the locally observable volume state, and the
guarded track / quality operations whose library calls carry no further
observable state in this layer. -/

/-- State of one ShakaPlayerImpl instance.  hasVideoElement and
hasShakaPlayer record whether initialize has created the video element and
the library player object (the getters null-check them). -/
structure ShakaEngine where
  initialized : Bool
  hasVideoElement : Bool
  hasShakaPlayer : Bool
  state : PlayerState
  currentTime : ℚ
  volume : ℚ
  muted : Bool
  deriving DecidableEq, Repr

/-- Observable outcome of one Shaka operation. -/
structure ShakaResult where
  res : Except PlayerError Unit
  engine : ShakaEngine
  events : List PlayerEvent
  deriving DecidableEq, Repr

/-- Translation of ShakaPlayerImpl.setVolume: guard, clamp into the video
element volume, emit one volumechange. -/
def shakaSetVolume (e : ShakaEngine) (volume : ℚ) : ShakaResult :=
  if e.initialized = false then
    { res := .error notInitializedError, engine := e, events := [] }
  else
    let v := max 0 (min 1 volume)
    { res := .ok ()
      engine := {e with volume := v}
      events := [.volumechange v] }

/-- Translation of ShakaPlayerImpl.getVolume: videoElement volume, zero when
the element does not exist. -/
def shakaGetVolume (e : ShakaEngine) : ℚ :=
  if e.hasVideoElement then e.volume else 0

/-- Translation of ShakaPlayerImpl.getState: plain read, no guard. -/
def shakaGetState (e : ShakaEngine) : PlayerState :=
  e.state

/-- Translation of ShakaPlayerImpl.getCurrentTime: videoElement currentTime,
zero when the element does not exist; no guard. -/
def shakaGetCurrentTime (e : ShakaEngine) : ℚ :=
  if e.hasVideoElement then e.currentTime else 0

/-- Translation of ShakaPlayerImpl.setAudioTrack: guarded; the library
language-selection call has no observable effect in this layer. -/
def shakaSetAudioTrack (e : ShakaEngine) (_trackId : String) : ShakaResult :=
  if e.initialized = false then
    { res := .error notInitializedError, engine := e, events := [] }
  else
    { res := .ok (), engine := e, events := [] }

/-- Translation of ShakaPlayerImpl.setSubtitleTrack: guarded; the library
text-track calls have no observable effect in this layer. -/
def shakaSetSubtitleTrack (e : ShakaEngine) (_trackId : Option String) :
    ShakaResult :=
  if e.initialized = false then
    { res := .error notInitializedError, engine := e, events := [] }
  else
    { res := .ok (), engine := e, events := [] }

/-- Translation of ShakaPlayerImpl.setQuality: guarded; reconfigures the
library and emits one qualitychange with the requested id. -/
def shakaSetQuality (e : ShakaEngine) (qualityId : Option String) :
    ShakaResult :=
  if e.initialized = false then
    { res := .error notInitializedError, engine := e, events := [] }
  else
    { res := .ok (), engine := e, events := [.qualitychange qualityId] }

/-- Translation of ShakaPlayerImpl.enableAdaptiveBitrate: guarded; the
library reconfiguration has no observable effect in this layer. -/
def shakaEnableAdaptiveBitrate (e : ShakaEngine) (_enabled : Bool) :
    ShakaResult :=
  if e.initialized = false then
    { res := .error notInitializedError, engine := e, events := [] }
  else
    { res := .ok (), engine := e, events := [] }

/-! ## Native HTML5 engine (NativePlayerImpl) -/

/-- State of one NativePlayerImpl instance. -/
structure NativeEngine where
  initialized : Bool
  hasVideoElement : Bool
  state : PlayerState
  volume : ℚ
  muted : Bool
  deriving DecidableEq, Repr

/-- Observable outcome of one native-engine operation. -/
structure NativeResult where
  res : Except PlayerError Unit
  engine : NativeEngine
  events : List PlayerEvent
  deriving DecidableEq, Repr

/-- Translation of NativePlayerImpl.setVolume: guard, clamp into the video
element volume, emit one volumechange with the clamped value. -/
def nativeSetVolume (e : NativeEngine) (volume : ℚ) : NativeResult :=
  if e.initialized = false then
    { res := .error notInitializedError, engine := e, events := [] }
  else
    let v := max 0 (min 1 volume)
    { res := .ok ()
      engine := {e with volume := v}
      events := [.volumechange v] }

/-- Translation of NativePlayerImpl.getVolume: videoElement volume, zero
when the element does not exist. -/
def nativeGetVolume (e : NativeEngine) : ℚ :=
  if e.hasVideoElement then e.volume else 0

/-! ## HLS.js fallback engine (HLSPlayerImpl in
src/packages/core/src/player/implementations/index.ts) -/

/-- State of one HLSPlayerImpl instance.  hasVideoElement records whether
initialize has created the video element (the getters null-check it). -/
structure HLSEngine where
  initialized : Bool
  hasVideoElement : Bool
  state : PlayerState
  volume : ℚ
  muted : Bool
  deriving DecidableEq, Repr

/-- Observable outcome of one HLS-engine operation. -/
structure HLSResult where
  res : Except PlayerError Unit
  engine : HLSEngine
  events : List PlayerEvent
  deriving DecidableEq, Repr

/-- Translation of HLSPlayerImpl.setVolume: guard, clamp into the video
element volume, emit one volumechange with the clamped value. -/
def hlsSetVolume (e : HLSEngine) (volume : ℚ) : HLSResult :=
  if e.initialized = false then
    { res := .error notInitializedError, engine := e, events := [] }
  else
    let v := max 0 (min 1 volume)
    { res := .ok ()
      engine := {e with volume := v}
      events := [.volumechange v] }

/-- Translation of HLSPlayerImpl.getVolume: videoElement volume, zero when
the element does not exist. -/
def hlsGetVolume (e : HLSEngine) : ℚ :=
  if e.hasVideoElement then e.volume else 0

/-! ## Remaining support definitions -/

/-- Invariant of the coordinator retryStates map: every tracked entry has
performed at least one attempt and has not exhausted the budget. -/
def RetryMapInv (cfg : RetryConfig) (m : RetryMap) : Prop :=
  ∀ c s, m c = some s → 1 ≤ s.attempts ∧ s.attempts < cfg.maxAttempts

/-- Non-fatal network error of the shape load rejects with, used to drive
the retry verb in traces. -/
def networkStreamError : PlayerError :=
  { type := .network
    code := "MANIFEST_LOAD_ERROR"
    message := "Failed to load stream"
    fatal := false }

/-! ## Helper lemmas about the coordinator map -/

theorem mapInsert_insert (m : RetryMap) (c : String) (a b : RetryState) :
    mapInsert (mapInsert m c a) c b = mapInsert m c b := by
  funext x
  simp only [mapInsert]
  split <;> rfl

theorem mapErase_insert (m : RetryMap) (c : String) (a : RetryState) :
    mapErase (mapInsert m c a) c = mapErase m c := by
  funext x
  simp only [mapErase, mapInsert]
  split <;> rfl

theorem isRecoverable_of_retry (e : PlayerError)
    (hs : getErrorRecoveryStrategy e = .retry) (hf : e.fatal = false) :
    isRecoverableError e = true := by
  simp [isRecoverableError, hf, hs]

theorem recover_retry_eq (cfg : RetryConfig) (m : RetryMap) (e : PlayerError)
    (c : String) (now : Nat) (retryOk : Bool)
    (hs : getErrorRecoveryStrategy e = .retry) (hf : e.fatal = false) :
    recover cfg m e c now retryOk = retryWithBackoff cfg m c now retryOk := by
  simp [recover, isRecoverable_of_retry e hs hf, hs]

theorem retryWithBackoff_tracked_fail_mid (cfg : RetryConfig) (m : RetryMap)
    (c : String) (now : Nat) (s : RetryState) (hm : m c = some s)
    (hlt : s.attempts + 1 < cfg.maxAttempts) :
    retryWithBackoff cfg m c now false =
      { result :=
          { success := false
            action := .retry
            message := "Retry failed. "
              ++ toString (cfg.maxAttempts - (s.attempts + 1)) ++ " attempts remaining"
            nextAttempt := some (s.attempts + 2) }
        map := mapInsert m c
          { attempts := s.attempts + 1
            lastAttempt := now
            nextDelay := min s.nextDelay cfg.maxDelayMs * cfg.backoffMultiplier }
        requestedDelay := some (min s.nextDelay cfg.maxDelayMs)
        invokedRetry := true } := by
  unfold retryWithBackoff getOrCreateRetryState
  rw [hm]
  simp only
  rw [if_neg (by omega)]
  simp only [Bool.false_eq_true, if_false]
  rw [if_pos (by omega)]

theorem retryWithBackoff_tracked_fail_last (cfg : RetryConfig) (m : RetryMap)
    (c : String) (now : Nat) (s : RetryState) (hm : m c = some s)
    (hlast : s.attempts + 1 = cfg.maxAttempts) :
    retryWithBackoff cfg m c now false =
      { result :=
          { success := false
            action := .fail
            message := "All retry attempts exhausted"
            nextAttempt := none }
        map := mapErase m c
        requestedDelay := some (min s.nextDelay cfg.maxDelayMs)
        invokedRetry := true } := by
  unfold retryWithBackoff getOrCreateRetryState
  rw [hm]
  simp only
  rw [if_neg (by omega)]
  simp only [Bool.false_eq_true, if_false]
  rw [if_neg (by omega), mapErase_insert]

theorem retryWithBackoff_untracked_fail_first (cfg : RetryConfig)
    (m : RetryMap) (c : String) (now : Nat) (hm : m c = none)
    (hlt : 1 < cfg.maxAttempts) :
    retryWithBackoff cfg m c now false =
      { result :=
          { success := false
            action := .retry
            message := "Retry failed. "
              ++ toString (cfg.maxAttempts - 1) ++ " attempts remaining"
            nextAttempt := some 2 }
        map := mapInsert m c
          { attempts := 1
            lastAttempt := now
            nextDelay := min cfg.initialDelayMs cfg.maxDelayMs * cfg.backoffMultiplier }
        requestedDelay := some (min cfg.initialDelayMs cfg.maxDelayMs)
        invokedRetry := true } := by
  unfold retryWithBackoff getOrCreateRetryState
  rw [hm]
  simp only [freshRetryState]
  rw [if_neg (by omega)]
  simp only [Bool.false_eq_true, if_false]
  rw [if_pos (by omega), mapInsert_insert]

theorem retryWithBackoff_untracked_fail_only (cfg : RetryConfig)
    (m : RetryMap) (c : String) (now : Nat) (hm : m c = none)
    (hone : cfg.maxAttempts = 1) :
    retryWithBackoff cfg m c now false =
      { result :=
          { success := false
            action := .fail
            message := "All retry attempts exhausted"
            nextAttempt := none }
        map := mapErase m c
        requestedDelay := some (min cfg.initialDelayMs cfg.maxDelayMs)
        invokedRetry := true } := by
  unfold retryWithBackoff getOrCreateRetryState
  rw [hm]
  simp only [freshRetryState]
  rw [if_neg (by omega)]
  simp only [Bool.false_eq_true, if_false]
  rw [if_neg (by omega), mapErase_insert, mapErase_insert]

theorem retryWithBackoff_lookup_ne (cfg : RetryConfig) (m : RetryMap)
    (c : String) (now : Nat) (retryOk : Bool) (x : String) (hx : x ≠ c) :
    (retryWithBackoff cfg m c now retryOk).map x = m x := by
  unfold retryWithBackoff getOrCreateRetryState
  cases hm : m c with
  | none =>
    simp only
    split
    · simp [mapErase, mapInsert, hx]
    · split
      · simp [mapErase, mapInsert, hx]
      · split
        · simp [mapInsert, hx]
        · simp [mapErase, mapInsert, hx]
  | some s =>
    simp only
    split
    · simp [mapErase, hx]
    · split
      · simp [mapErase, mapInsert, hx]
      · split
        · simp [mapInsert, hx]
        · simp [mapErase, mapInsert, hx]

theorem retryWithBackoff_lookup_self (cfg : RetryConfig) (m : RetryMap)
    (c : String) (now : Nat) (retryOk : Bool) :
    (retryWithBackoff cfg m c now retryOk).map c = none ∨
      ∃ s1 : RetryState, (retryWithBackoff cfg m c now retryOk).map c = some s1 ∧
        1 ≤ s1.attempts ∧ s1.attempts < cfg.maxAttempts := by
  unfold retryWithBackoff getOrCreateRetryState
  cases hm : m c with
  | none =>
    simp only [freshRetryState]
    split
    · exact Or.inl (by simp [mapErase])
    · split
      · exact Or.inl (by simp [mapErase])
      · split
        · rename_i hbound hok hrem
          exact Or.inr ⟨⟨0 + 1, now, (cfg.initialDelayMs ⊓ cfg.maxDelayMs) * cfg.backoffMultiplier⟩, by simp [mapInsert], Nat.le_refl 1, show (0 : Nat) + 1 < cfg.maxAttempts by omega⟩
        · exact Or.inl (by simp [mapErase])
  | some s =>
    simp only
    split
    · exact Or.inl (by simp [mapErase])
    · split
      · exact Or.inl (by simp [mapErase])
      · split
        · rename_i hbound hok hrem
          exact Or.inr ⟨⟨s.attempts + 1, now, (s.nextDelay ⊓ cfg.maxDelayMs) * cfg.backoffMultiplier⟩, by simp [mapInsert], Nat.le_add_left 1 s.attempts, show s.attempts + 1 < cfg.maxAttempts by omega⟩
        · exact Or.inl (by simp [mapErase])

theorem recover_preserves_inv (cfg : RetryConfig) (m : RetryMap)
    (e : PlayerError) (c : String) (now : Nat) (retryOk : Bool)
    (h : RetryMapInv cfg m) :
    RetryMapInv cfg (recover cfg m e c now retryOk).map := by
  unfold recover
  split
  · exact h
  · split
    · intro x s hx
      by_cases hxc : x = c
      · subst hxc
        rcases retryWithBackoff_lookup_self cfg m x now retryOk with hnone | ⟨s1, hs1, h1, h2⟩
        · rw [hnone] at hx
          cases hx
        · rw [hs1] at hx
          cases hx
          exact ⟨h1, h2⟩
      · rw [retryWithBackoff_lookup_ne cfg m c now retryOk x hxc] at hx
        exact h x s hx
    · exact h
    · exact h
    · exact h

theorem runOp_preserves_inv (cfg : RetryConfig) (m : RetryMap)
    (op : CoordinatorOp) (h : RetryMapInv cfg m) :
    RetryMapInv cfg (runOp cfg m op) := by
  cases op with
  | recoverOp e c now retryOk => exact recover_preserves_inv cfg m e c now retryOk h
  | clearAllOp => intro x s hx; cases hx

theorem runOps_inv (cfg : RetryConfig) (ops : List CoordinatorOp) :
    RetryMapInv cfg (runOps cfg ops) := by
  suffices h : ∀ m, RetryMapInv cfg m → RetryMapInv cfg (ops.foldl (runOp cfg) m) by
    refine h emptyRetryMap ?_
    intro c s hs
    cases hs
  induction ops with
  | nil => intro m hm; exact hm
  | cons op rest ih =>
    intro m hm
    exact ih _ (runOp_preserves_inv cfg m op hm)

/-- Helper for the exhaustion claim: after k failing recover calls on a
retry-verb error, the tracked entry for the context carries exactly k
attempts (and is absent for k = 0), as long as k is below the budget. -/
theorem mapAfterFailures_tracked (cfg : RetryConfig) (e : PlayerError)
    (c : String) (hs : getErrorRecoveryStrategy e = .retry)
    (hf : e.fatal = false) :
    ∀ k, k < cfg.maxAttempts →
      (k = 0 ∧ mapAfterFailures cfg e c emptyRetryMap k c = none) ∨
      (0 < k ∧ ∃ nd, mapAfterFailures cfg e c emptyRetryMap k c =
        some { attempts := k, lastAttempt := 0, nextDelay := nd }) := by
  intro k
  induction k with
  | zero => intro hk; exact Or.inl ⟨rfl, rfl⟩
  | succ n ih =>
    intro hk
    have hn : n < cfg.maxAttempts := by omega
    have hrec : mapAfterFailures cfg e c emptyRetryMap (n + 1)
        = (recover cfg (mapAfterFailures cfg e c emptyRetryMap n) e c 0 false).map := rfl
    rcases ih hn with ⟨hn0, hmap⟩ | ⟨hpos, nd, hmap⟩
    · subst hn0
      rw [hrec, recover_retry_eq cfg _ e c 0 false hs hf,
        retryWithBackoff_untracked_fail_first cfg _ c 0 hmap (by omega)]
      refine Or.inr ⟨by omega, min cfg.initialDelayMs cfg.maxDelayMs * cfg.backoffMultiplier, ?_⟩
      simp [mapInsert]
    · rw [hrec, recover_retry_eq cfg _ e c 0 false hs hf,
        retryWithBackoff_tracked_fail_mid cfg _ c 0 _ hmap hk]
      refine Or.inr ⟨by omega, min nd cfg.maxDelayMs * cfg.backoffMultiplier, ?_⟩
      simp [mapInsert]

/-! ## Claim theorems -/

/-- C4: each retry attempt for a tracked context requests the delay
min(nextDelay, maxDelayMs), increments attempts and stores
nextDelay = delay * backoffMultiplier before the retry action runs (visible
in the retained entry when the action fails mid-sequence); with the default
configuration the successive requested delays of one context are exactly
1000ms, 2000ms, 4000ms, each at most maxDelayMs. -/
theorem backoff_delay_sequence :
    (∀ (cfg : RetryConfig) (m : RetryMap) (c : String) (now : Nat)
        (retryOk : Bool) (s : RetryState), m c = some s →
        s.attempts < cfg.maxAttempts →
        (retryWithBackoff cfg m c now retryOk).requestedDelay
            = some (min s.nextDelay cfg.maxDelayMs) ∧
        (retryWithBackoff cfg m c now retryOk).invokedRetry = true ∧
        (retryOk = false → s.attempts + 1 < cfg.maxAttempts →
          (retryWithBackoff cfg m c now retryOk).map c =
            some { attempts := s.attempts + 1
                   lastAttempt := now
                   nextDelay := min s.nextDelay cfg.maxDelayMs * cfg.backoffMultiplier })) ∧
    recoverTraceDelays DEFAULT_CONFIG networkStreamError "channel" 3 emptyRetryMap
        = [some 1000, some 2000, some 4000] ∧
    (∀ d ∈ recoverTraceDelays DEFAULT_CONFIG networkStreamError "channel" 3 emptyRetryMap,
      d.getD 0 ≤ DEFAULT_CONFIG.maxDelayMs) := by
  refine ⟨?_, by decide, by decide⟩
  intro cfg m c now retryOk s hm hlt
  unfold retryWithBackoff getOrCreateRetryState
  rw [hm]
  simp only
  rw [if_neg (by omega)]
  refine ⟨?_, ?_, ?_⟩
  · split
    · rfl
    · split <;> rfl
  · split
    · rfl
    · split <;> rfl
  · intro hok hlt2
    subst hok
    simp only [Bool.false_eq_true, if_false]
    rw [if_pos (by omega)]
    simp [mapInsert]

/-- Witness for C4 at the default configuration: a context tracked with one
attempt and nextDelay 2000 requests delay 2000 and retains attempts 2 with
nextDelay 4000 after a failing retry. -/
theorem backoff_delay_sequence_witness :
    (retryWithBackoff DEFAULT_CONFIG
        (mapInsert emptyRetryMap "w4" { attempts := 1, lastAttempt := 0, nextDelay := 2000 })
        "w4" 7 false).requestedDelay
      = some (min 2000 DEFAULT_CONFIG.maxDelayMs) ∧
    (retryWithBackoff DEFAULT_CONFIG
        (mapInsert emptyRetryMap "w4" { attempts := 1, lastAttempt := 0, nextDelay := 2000 })
        "w4" 7 false).map "w4"
      = some { attempts := 2, lastAttempt := 7
               nextDelay := min 2000 DEFAULT_CONFIG.maxDelayMs * DEFAULT_CONFIG.backoffMultiplier } :=
  ⟨(backoff_delay_sequence.1 DEFAULT_CONFIG _ "w4" 7 false
      { attempts := 1, lastAttempt := 0, nextDelay := 2000 } (by decide) (by decide)).1,
   (backoff_delay_sequence.1 DEFAULT_CONFIG _ "w4" 7 false
      { attempts := 1, lastAttempt := 0, nextDelay := 2000 } (by decide) (by decide)).2.2
      rfl (by decide)⟩

/-- C5: a failing retry with attempts remaining returns success false,
action retry and nextAttempt one past the incremented attempts count while
the entry stays tracked; the call that consumes the last attempt of the
budget returns success false, action fail, and the context is no longer
retrying immediately after. -/
theorem retry_exhaustion :
    (∀ (cfg : RetryConfig) (m : RetryMap) (e : PlayerError) (c : String)
        (now : Nat), getErrorRecoveryStrategy e = .retry → e.fatal = false →
        ∀ s : RetryState, m c = some s → s.attempts + 1 < cfg.maxAttempts →
        (recover cfg m e c now false).result.success = false ∧
        (recover cfg m e c now false).result.action = .retry ∧
        (recover cfg m e c now false).result.nextAttempt = some (s.attempts + 1 + 1) ∧
        (recover cfg m e c now false).map c =
          some { attempts := s.attempts + 1
                 lastAttempt := now
                 nextDelay := min s.nextDelay cfg.maxDelayMs * cfg.backoffMultiplier } ∧
        isRetrying (recover cfg m e c now false).map c = true) ∧
    (∀ (cfg : RetryConfig) (e : PlayerError) (c : String),
        getErrorRecoveryStrategy e = .retry → e.fatal = false →
        1 ≤ cfg.maxAttempts →
        (recover cfg (mapAfterFailures cfg e c emptyRetryMap (cfg.maxAttempts - 1))
            e c 0 false).result.success = false ∧
        (recover cfg (mapAfterFailures cfg e c emptyRetryMap (cfg.maxAttempts - 1))
            e c 0 false).result.action = .fail ∧
        isRetrying (recover cfg (mapAfterFailures cfg e c emptyRetryMap (cfg.maxAttempts - 1))
            e c 0 false).map c = false) := by
  constructor
  · intro cfg m e c now hs hf s hm hlt
    rw [recover_retry_eq cfg m e c now false hs hf,
      retryWithBackoff_tracked_fail_mid cfg m c now s hm hlt]
    refine ⟨rfl, rfl, rfl, by simp [mapInsert], by simp [isRetrying, mapInsert]⟩
  · intro cfg e c hs hf hmax
    rcases mapAfterFailures_tracked cfg e c hs hf (cfg.maxAttempts - 1) (by omega)
      with ⟨hz, hmap⟩ | ⟨hpos, nd, hmap⟩
    · rw [recover_retry_eq cfg _ e c 0 false hs hf,
        retryWithBackoff_untracked_fail_only cfg _ c 0 hmap (by omega)]
      exact ⟨rfl, rfl, by simp [isRetrying, mapErase]⟩
    · rw [recover_retry_eq cfg _ e c 0 false hs hf,
        retryWithBackoff_tracked_fail_last cfg _ c 0 _ hmap
          (show cfg.maxAttempts - 1 + 1 = cfg.maxAttempts by omega)]
      exact ⟨rfl, rfl, by simp [isRetrying, mapErase]⟩

/-- Witness for C5 at the default configuration: the third consecutive
failing retry for a fresh context exhausts the budget of three, returns
fail, and the context is not retrying afterwards. -/
theorem retry_exhaustion_witness :
    (recover DEFAULT_CONFIG
        (mapAfterFailures DEFAULT_CONFIG networkStreamError "w5" emptyRetryMap
          (DEFAULT_CONFIG.maxAttempts - 1))
        networkStreamError "w5" 0 false).result.action = .fail ∧
    isRetrying (recover DEFAULT_CONFIG
        (mapAfterFailures DEFAULT_CONFIG networkStreamError "w5" emptyRetryMap
          (DEFAULT_CONFIG.maxAttempts - 1))
        networkStreamError "w5" 0 false).map "w5" = false :=
  ⟨(retry_exhaustion.2 DEFAULT_CONFIG networkStreamError "w5" rfl rfl (by decide)).2.1,
   (retry_exhaustion.2 DEFAULT_CONFIG networkStreamError "w5" rfl rfl (by decide)).2.2⟩

/-- C6: recover on a drm error (any fatal flag) returns success false and
action fail immediately, with no delay requested, no retry action invoked
and the retry map untouched; recover on a non-fatal unsupported_audio error
returns success true and action skip immediately, again with no delay, no
invocation and no map change. -/
theorem recover_immediate_verbs (cfg : RetryConfig) (m : RetryMap)
    (c : String) (now : Nat) (retryOk : Bool) (code msg : String) (b : Bool) :
    recover cfg m { type := .drm, code := code, message := msg, fatal := b }
        c now retryOk =
      { result := { success := false, action := .fail
                    message := "Fatal error: " ++ msg, nextAttempt := none }
        map := m, requestedDelay := none, invokedRetry := false } ∧
    recover cfg m { type := .unsupported_audio, code := code, message := msg, fatal := false }
        c now retryOk =
      { result := { success := true, action := .skip
                    message := "Skipping problematic content", nextAttempt := none }
        map := m, requestedDelay := none, invokedRetry := false } := by
  constructor
  · cases b <;> rfl
  · rfl

/-- C10: every retryStates map reachable by a sequence of coordinator
operations from a fresh coordinator tracks only entries with
1 ≤ attempts < maxAttempts; hence isRetrying implies the attempts count is
in that window, and an untracked context reports zero attempts. -/
theorem retry_map_invariant (cfg : RetryConfig) (ops : List CoordinatorOp) :
    RetryMapInv cfg (runOps cfg ops) ∧
    (∀ c, isRetrying (runOps cfg ops) c = true →
      1 ≤ getAttempts (runOps cfg ops) c ∧
      getAttempts (runOps cfg ops) c < cfg.maxAttempts) ∧
    (∀ c, runOps cfg ops c = none → getAttempts (runOps cfg ops) c = 0) := by
  have hinv := runOps_inv cfg ops
  refine ⟨hinv, ?_, ?_⟩
  · intro c hc
    cases hm : runOps cfg ops c with
    | none => simp [isRetrying, hm] at hc
    | some s =>
      have hw := hinv c s hm
      simpa [getAttempts, hm] using hw
  · intro c hnone
    simp [getAttempts, hnone]

/-- Witness for C10: after one failing recover on a network error the
context is tracked, and the invariant theorem bounds its attempts. -/
theorem retry_map_invariant_witness :
    isRetrying (runOps DEFAULT_CONFIG
      [CoordinatorOp.recoverOp networkStreamError "ch1" 0 false]) "ch1" = true ∧
    (1 ≤ getAttempts (runOps DEFAULT_CONFIG
        [CoordinatorOp.recoverOp networkStreamError "ch1" 0 false]) "ch1" ∧
      getAttempts (runOps DEFAULT_CONFIG
        [CoordinatorOp.recoverOp networkStreamError "ch1" 0 false]) "ch1"
        < DEFAULT_CONFIG.maxAttempts) :=
  ⟨by decide,
   (retry_map_invariant DEFAULT_CONFIG
      [CoordinatorOp.recoverOp networkStreamError "ch1" 0 false]).2.1 "ch1" (by decide)⟩

/-- Counterexample to C2: a fatal timeout error is mapped to the verb retry
by the kind-to-verb mapping, not to fail, so the fatal flag does not
override the mapping for the timeout kind (the same holds for
unsupported_audio and unsupported_format). -/
theorem fatal_override_counterexample :
    getErrorRecoveryStrategy
      { type := .timeout, code := "LOAD_TIMEOUT", message := "timed out", fatal := true }
      = .retry ∧
    RecoveryAction.retry ≠ RecoveryAction.fail ∧
    getErrorRecoveryStrategy
      { type := .unsupported_audio, code := "UNSUPPORTED_AUDIO_CODEC"
        message := "dts", fatal := true } = .skip ∧
    getErrorRecoveryStrategy
      { type := .unsupported_format, code := "UNSUPPORTED_FORMAT"
        message := "bad", fatal := true } = .fallback := by
  refine ⟨rfl, by decide, rfl, rfl⟩

/-- C2 amended: isRecoverable is false for every fatal error, but the
kind-to-verb mapping honours the fatal flag only for network and media; it
yields fail for fatal network, media, drm and unknown, while a fatal
timeout still maps to retry, fatal unsupported_audio to skip, and fatal
unsupported_format to fallback. -/
theorem fatal_override_amended (t : PlayerErrorType) (code msg : String) :
    isRecoverableError { type := t, code := code, message := msg, fatal := true } = false ∧
    (getErrorRecoveryStrategy { type := t, code := code, message := msg, fatal := true } = .fail
      ↔ (t = .network ∨ t = .media ∨ t = .drm ∨ t = .unknown)) ∧
    (t = .timeout →
      getErrorRecoveryStrategy { type := t, code := code, message := msg, fatal := true } = .retry) ∧
    (t = .unsupported_audio →
      getErrorRecoveryStrategy { type := t, code := code, message := msg, fatal := true } = .skip) ∧
    (t = .unsupported_format →
      getErrorRecoveryStrategy { type := t, code := code, message := msg, fatal := true } = .fallback) := by
  cases t <;> simp [isRecoverableError, getErrorRecoveryStrategy]

/-- Witness for C2 amended at the timeout kind. -/
theorem fatal_override_amended_witness :
    isRecoverableError
      { type := .timeout, code := "LOAD_TIMEOUT", message := "t", fatal := true } = false ∧
    getErrorRecoveryStrategy
      { type := .timeout, code := "LOAD_TIMEOUT", message := "t", fatal := true } = .retry :=
  ⟨(fatal_override_amended .timeout "LOAD_TIMEOUT" "t").1,
   (fatal_override_amended .timeout "LOAD_TIMEOUT" "t").2.2.1 rfl⟩

/-- C7: a prepare failure whose message matches the DTS fault vocabulary is
reclassified as a non-fatal unsupported_audio error, routed to skip by the
coordinator mapping; every other prepare failure becomes a generic
non-fatal network fault routed to retry, never skip.  At the load level an
initialized engine with a usable native object rejects with exactly this
classified error and transitions to the error state. -/
theorem dts_reclassification (msg : String) :
    (classifyPrepareFailure msg).fatal = false ∧
    (isDTSError msg = true →
      (classifyPrepareFailure msg).type = .unsupported_audio ∧
      getErrorRecoveryStrategy (classifyPrepareFailure msg) = .skip) ∧
    (isDTSError msg = false →
      (classifyPrepareFailure msg).type = .network ∧
      getErrorRecoveryStrategy (classifyPrepareFailure msg) = .retry ∧
      getErrorRecoveryStrategy (classifyPrepareFailure msg) ≠ .skip) ∧
    (∀ (e : AVPlayEngine) (url : String) (d : Nat), e.initialized = true →
      e.avplayPresent = true →
      (avplayLoad e url (some msg) d).res = .error (classifyPrepareFailure msg) ∧
      (avplayLoad e url (some msg) d).engine.state = .error) := by
  refine ⟨?_, ?_, ?_, ?_⟩
  · unfold classifyPrepareFailure
    split <;> rfl
  · intro hdts
    simp [classifyPrepareFailure, hdts, getErrorRecoveryStrategy]
  · intro hdts
    simp [classifyPrepareFailure, hdts, getErrorRecoveryStrategy]
  · intro e url d hinit hav
    unfold avplayLoad avplaySetState
    rw [hinit, hav]
    simp only [Bool.true_eq_false, if_false]
    constructor
    · trivial
    · split <;> split <;> simp_all

/-- Witness for C7: the message the Tizen DTS failure carries matches the
vocabulary and is classified unsupported_audio / skip; a plain network
message is classified network / retry; and a concrete initialized engine
rejects load with the classified error. -/
theorem dts_reclassification_witness :
    (classifyPrepareFailure "DTS decoder missing").type = .unsupported_audio ∧
    getErrorRecoveryStrategy (classifyPrepareFailure "DTS decoder missing") = .skip ∧
    (classifyPrepareFailure "connection refused").type = .network ∧
    getErrorRecoveryStrategy (classifyPrepareFailure "connection refused") = .retry ∧
    (avplayLoad
        { initialized := true, avplayPresent := true, native := .IDLE
          state := .idle, currentTime := 0, duration := 0, volume := 1
          muted := false, timeTracking := false }
        "http://x/s.m3u8" (some "DTS decoder missing") 0).res
      = .error (classifyPrepareFailure "DTS decoder missing") :=
  ⟨((dts_reclassification "DTS decoder missing").2.1 (by decide)).1,
   ((dts_reclassification "DTS decoder missing").2.1 (by decide)).2,
   ((dts_reclassification "connection refused").2.2.1 (by decide)).1,
   ((dts_reclassification "connection refused").2.2.1 (by decide)).2.1,
   ((dts_reclassification "DTS decoder missing").2.2.2
      { initialized := true, avplayPresent := true, native := .IDLE
        state := .idle, currentTime := 0, duration := 0, volume := 1
        muted := false, timeTracking := false }
      "http://x/s.m3u8" 0 rfl rfl).1⟩

/-- Counterexample to C8: a URL that merely contains .mp4 without ending in
it is classified progressive by the source (substring containment), while
the claimed ends-with reading would fall through to the hls default, so the
two disagree at this input. -/
theorem detect_stream_type_counterexample :
    detectStreamType "http://x/a.mp4?token=1" = .progressive ∧
    detectStreamTypeSpec "http://x/a.mp4?token=1" = .hls ∧
    detectStreamType "http://x/a.mp4?token=1"
      ≠ detectStreamTypeSpec "http://x/a.mp4?token=1" := by
  refine ⟨by decide, by decide, by decide⟩

/-- C8 amended: detectStreamType is case-insensitive (it depends only on
the lowercased URL) and classifies by substring containment throughout:
m3u8/m3u containment gives hls, then mpd containment gives dash, then
mp4/webm/ogg containment (not an ends-with test) gives progressive, and
everything else defaults to hls. -/
theorem detect_stream_type_amended (streamUrl : String) :
    detectStreamType streamUrl = detectStreamTypeAmended streamUrl ∧
    (∀ other : String, lowerChars streamUrl = lowerChars other →
      detectStreamType streamUrl = detectStreamType other) := by
  constructor
  · unfold detectStreamType detectStreamTypeAmended
    simp [HLS_EXTENSIONS, DASH_EXTENSIONS, PROGRESSIVE_EXTENSIONS, List.any, or_assoc]
  · intro other h
    unfold detectStreamType
    rw [h]

/-- Witness for C8 amended: the mixed-case HLS URL agrees with the amended
classifier, and changing only the letter case of the URL does not change
the detected type. -/
theorem detect_stream_type_amended_witness :
    detectStreamType "http://x/a.M3U8" = detectStreamTypeAmended "http://x/a.M3U8" ∧
    detectStreamType "http://x/a.M3U8" = detectStreamType "HTTP://X/A.m3u8" :=
  ⟨(detect_stream_type_amended "http://x/a.M3U8").1,
   (detect_stream_type_amended "http://x/a.M3U8").2 "HTTP://X/A.m3u8" (by decide)⟩

theorem clamp_neg_one : max (0 : ℚ) (min 1 (-1)) = 0 := by norm_num

theorem clamp_two : max (0 : ℚ) (min 1 2) = 1 := by norm_num

theorem clamp_nonneg (v : ℚ) : 0 ≤ max 0 (min 1 v) :=
  le_max_left 0 (min 1 v)

theorem clamp_le_one (v : ℚ) : max (0 : ℚ) (min 1 v) ≤ 1 :=
  max_le (by norm_num) (min_le_left 1 v)

/-- C9: on every initialized engine, setVolume never rejects for
out-of-range numeric inputs: it stores the volume clamped to the unit
interval, emits exactly one volumechange event carrying the clamped value,
and in particular setVolume of -1 reads back as 0 and setVolume of 2 reads
back as 1. -/
theorem set_volume_clamps :
    (∀ (e : AVPlayEngine) (v : ℚ), e.initialized = true →
      (avplaySetVolume e v).res = .ok () ∧
      (avplaySetVolume e v).events = [.volumechange (max 0 (min 1 v))] ∧
      avplayGetVolume (avplaySetVolume e v).engine = max 0 (min 1 v) ∧
      0 ≤ avplayGetVolume (avplaySetVolume e v).engine ∧
      avplayGetVolume (avplaySetVolume e v).engine ≤ 1 ∧
      avplayGetVolume (avplaySetVolume e (-1)).engine = 0 ∧
      avplayGetVolume (avplaySetVolume e 2).engine = 1) ∧
    (∀ (e : ShakaEngine) (v : ℚ), e.initialized = true →
        e.hasVideoElement = true →
      (shakaSetVolume e v).res = .ok () ∧
      (shakaSetVolume e v).events = [.volumechange (max 0 (min 1 v))] ∧
      shakaGetVolume (shakaSetVolume e v).engine = max 0 (min 1 v) ∧
      shakaGetVolume (shakaSetVolume e (-1)).engine = 0 ∧
      shakaGetVolume (shakaSetVolume e 2).engine = 1) ∧
    (∀ (e : NativeEngine) (v : ℚ), e.initialized = true →
        e.hasVideoElement = true →
      (nativeSetVolume e v).res = .ok () ∧
      (nativeSetVolume e v).events = [.volumechange (max 0 (min 1 v))] ∧
      nativeGetVolume (nativeSetVolume e v).engine = max 0 (min 1 v) ∧
      nativeGetVolume (nativeSetVolume e (-1)).engine = 0 ∧
      nativeGetVolume (nativeSetVolume e 2).engine = 1) ∧
    (∀ (e : HLSEngine) (v : ℚ), e.initialized = true →
        e.hasVideoElement = true →
      (hlsSetVolume e v).res = .ok () ∧
      (hlsSetVolume e v).events = [.volumechange (max 0 (min 1 v))] ∧
      hlsGetVolume (hlsSetVolume e v).engine = max 0 (min 1 v) ∧
      hlsGetVolume (hlsSetVolume e (-1)).engine = 0 ∧
      hlsGetVolume (hlsSetVolume e 2).engine = 1) := by
  refine ⟨?_, ?_, ?_, ?_⟩
  · intro e v hinit
    unfold avplaySetVolume avplayGetVolume
    rw [hinit]
    simp only [Bool.true_eq_false, if_false]
    refine ⟨?_, ?_, ?_, ?_, ?_, ?_, ?_⟩ <;>
      first
        | trivial
        | exact clamp_nonneg v
        | exact clamp_le_one v
        | exact clamp_neg_one
        | exact clamp_two
  · intro e v hinit hel
    unfold shakaSetVolume shakaGetVolume
    rw [hinit]
    simp only [Bool.true_eq_false, if_false, hel]
    refine ⟨?_, ?_, ?_, ?_, ?_⟩ <;>
      first
        | trivial
        | exact clamp_neg_one
        | exact clamp_two
  · intro e v hinit hel
    unfold nativeSetVolume nativeGetVolume
    rw [hinit]
    simp only [Bool.true_eq_false, if_false, hel]
    refine ⟨?_, ?_, ?_, ?_, ?_⟩ <;>
      first
        | trivial
        | exact clamp_neg_one
        | exact clamp_two
  · intro e v hinit hel
    unfold hlsSetVolume hlsGetVolume
    rw [hinit]
    simp only [Bool.true_eq_false, if_false, hel]
    refine ⟨?_, ?_, ?_, ?_, ?_⟩ <;>
      first
        | trivial
        | exact clamp_neg_one
        | exact clamp_two

/-- Witness for C9: a concrete initialized embedded engine clamps -1 to 0
and 2 to 1, emitting the volumechange with the clamped value. -/
theorem set_volume_clamps_witness :
    avplayGetVolume (avplaySetVolume
      { initialized := true, avplayPresent := true, native := .READY
        state := .paused, currentTime := 0, duration := 0, volume := 1
        muted := false, timeTracking := false } (-1)).engine = 0 ∧
    avplayGetVolume (avplaySetVolume
      { initialized := true, avplayPresent := true, native := .READY
        state := .paused, currentTime := 0, duration := 0, volume := 1
        muted := false, timeTracking := false } 2).engine = 1 ∧
    (avplaySetVolume
      { initialized := true, avplayPresent := true, native := .READY
        state := .paused, currentTime := 0, duration := 0, volume := 1
        muted := false, timeTracking := false } (-1)).events
      = [.volumechange (max 0 (min 1 (-1)))] :=
  ⟨(set_volume_clamps.1
      { initialized := true, avplayPresent := true, native := .READY
        state := .paused, currentTime := 0, duration := 0, volume := 1
        muted := false, timeTracking := false } 0 rfl).2.2.2.2.2.1,
   (set_volume_clamps.1
      { initialized := true, avplayPresent := true, native := .READY
        state := .paused, currentTime := 0, duration := 0, volume := 1
        muted := false, timeTracking := false } 0 rfl).2.2.2.2.2.2,
   (set_volume_clamps.1
      { initialized := true, avplayPresent := true, native := .READY
        state := .paused, currentTime := 0, duration := 0, volume := 1
        muted := false, timeTracking := false } (-1) rfl).2.1⟩

/-- Counterexample to C1: on an initialized embedded engine whose native
state is IDLE, play rejects with the media-kind cannot-play error (not an
unknown-kind InvalidState error) and has the side effect of switching the
engine state to error, emitting a statechange; the native play call is
indeed never reached. -/
theorem avplay_play_idle_counterexample :
    (avplayPlay
      { initialized := true, avplayPresent := true, native := .IDLE
        state := .paused, currentTime := 0, duration := 0, volume := 1
        muted := false, timeTracking := false }).res
      = .error (cannotPlayError .IDLE) ∧
    (cannotPlayError .IDLE).type = .media ∧
    (cannotPlayError .IDLE).type ≠ .unknown ∧
    (avplayPlay
      { initialized := true, avplayPresent := true, native := .IDLE
        state := .paused, currentTime := 0, duration := 0, volume := 1
        muted := false, timeTracking := false }).calls = [] ∧
    (avplayPlay
      { initialized := true, avplayPresent := true, native := .IDLE
        state := .paused, currentTime := 0, duration := 0, volume := 1
        muted := false, timeTracking := false }).events
      = [.statechange .error] := by
  refine ⟨by decide, by decide, by decide, by decide, by decide⟩

/-- C1 amended: on an initialized embedded engine with a usable native
object, only play checks the native state: in an illegal native state it
rejects with the non-fatal media-kind cannot-play error without reaching
the native play call, but mutates the engine state to error (emitting a
statechange when the state changes); pause outside the native PLAYING state
resolves silently with no native call, no event and no state change; and
seek performs no native-state check, reaching the native seekTo with the
floored millisecond position in every native state. -/
theorem avplay_state_guard_amended (e : AVPlayEngine)
    (hinit : e.initialized = true) (hav : e.avplayPresent = true) :
    (¬(e.native = .READY ∨ e.native = .PAUSED) →
      (avplayPlay e).res = .error (cannotPlayError e.native) ∧
      (cannotPlayError e.native).type = .media ∧
      (cannotPlayError e.native).fatal = false ∧
      (avplayPlay e).calls = [] ∧
      (avplayPlay e).engine.state = .error ∧
      (avplayPlay e).events
        = (if e.state = .error then [] else [.statechange .error])) ∧
    (e.native ≠ .PLAYING →
      (avplayPause e).res = .ok () ∧
      (avplayPause e).engine = e ∧
      (avplayPause e).events = [] ∧
      (avplayPause e).calls = []) ∧
    (∀ t : ℚ,
      (avplaySeek e t).res = .ok () ∧
      (avplaySeek e t).calls = [.seekTo (Int.floor (t * 1000))]) := by
  refine ⟨?_, ?_, ?_⟩
  · intro hng
    unfold avplayPlay avplaySetState getAVPlayState
    rw [hinit, hav]
    simp only [Bool.true_eq_false, if_false, eq_self_iff_true, if_true]
    rw [if_neg hng]
    refine ⟨?_, ?_, ?_, ?_, ?_, ?_⟩ <;>
      first
        | trivial
        | (split <;> first | rfl | assumption)
        | (split <;> simp_all)
  · intro hnp
    unfold avplayPause getAVPlayState
    rw [hinit, hav]
    simp only [Bool.true_eq_false, if_false, eq_self_iff_true, if_true]
    rw [if_neg hnp]
    refine ⟨?_, ?_, ?_, ?_⟩ <;> trivial
  · intro t
    unfold avplaySeek
    rw [hinit, hav]
    simp only [Bool.true_eq_false, if_false, eq_self_iff_true, if_true]
    refine ⟨?_, ?_⟩ <;> trivial

/-- Witness for C1 amended: a concrete initialized engine in native IDLE,
local state paused. -/
theorem avplay_state_guard_witness :
    (avplayPlay
      { initialized := true, avplayPresent := true, native := .IDLE
        state := .paused, currentTime := 0, duration := 0, volume := 1
        muted := false, timeTracking := false }).engine.state = .error ∧
    (avplayPause
      { initialized := true, avplayPresent := true, native := .IDLE
        state := .paused, currentTime := 0, duration := 0, volume := 1
        muted := false, timeTracking := false }).res = .ok () ∧
    (avplaySeek
      { initialized := true, avplayPresent := true, native := .IDLE
        state := .paused, currentTime := 0, duration := 0, volume := 1
        muted := false, timeTracking := false } 0).calls
      = [.seekTo (Int.floor ((0 : ℚ) * 1000))] :=
  ⟨((avplay_state_guard_amended
      { initialized := true, avplayPresent := true, native := .IDLE
        state := .paused, currentTime := 0, duration := 0, volume := 1
        muted := false, timeTracking := false } rfl rfl).1 (by decide)).2.2.2.2.1,
   ((avplay_state_guard_amended
      { initialized := true, avplayPresent := true, native := .IDLE
        state := .paused, currentTime := 0, duration := 0, volume := 1
        muted := false, timeTracking := false } rfl rfl).2.1 (by decide)).1,
   ((avplay_state_guard_amended
      { initialized := true, avplayPresent := true, native := .IDLE
        state := .paused, currentTime := 0, duration := 0, volume := 1
        muted := false, timeTracking := false } rfl rfl).2.2 0).2⟩

/-- Counterexample to C3: on a freshly constructed (uninitialized) embedded
engine, setAudioTrack resolves successfully with no events and no native
calls instead of failing with an InvalidState-classified error, because the
source setAudioTrack has no ensureInitialized guard and swallows the native
failure. -/
theorem uninitialized_guard_counterexample :
    ({ initialized := false, avplayPresent := false, native := .NONE
       state := .idle, currentTime := 0, duration := 0, volume := 1
       muted := false, timeTracking := false } : AVPlayEngine).initialized = false ∧
    (avplaySetAudioTrack
      { initialized := false, avplayPresent := false, native := .NONE
        state := .idle, currentTime := 0, duration := 0, volume := 1
        muted := false, timeTracking := false } "0").res = .ok () ∧
    (avplaySetAudioTrack
      { initialized := false, avplayPresent := false, native := .NONE
        state := .idle, currentTime := 0, duration := 0, volume := 1
        muted := false, timeTracking := false } "0").events = [] ∧
    (avplaySetAudioTrack
      { initialized := false, avplayPresent := false, native := .NONE
        state := .idle, currentTime := 0, duration := 0, volume := 1
        muted := false, timeTracking := false } "0").calls = [] := by
  refine ⟨by decide, by decide, by decide, by decide⟩

/-- C3 amended: before a successful initialize, the guarded stateful
operations (load, play, pause, stop, seek, setVolume, setMuted on the
embedded engine; setVolume, setAudioTrack, setSubtitleTrack, setQuality and
enableAdaptiveBitrate on the Shaka engine) fail with the
InvalidState-classified error (kind unknown, fatal false) and have no side
effect; but the getters return their current values without failing, and
the embedded engine's setAudioTrack, setSubtitleTrack,
enableAdaptiveBitrate and destroy carry no initialization guard and resolve
successfully. -/
theorem uninitialized_guard_amended :
    (∀ e : AVPlayEngine, e.initialized = false →
      avplayPlay e
        = { res := .error notInitializedError, engine := e, events := [], calls := [] } ∧
      avplayPause e
        = { res := .error notInitializedError, engine := e, events := [], calls := [] } ∧
      avplayStop e
        = { res := .error notInitializedError, engine := e, events := [], calls := [] } ∧
      (∀ t, avplaySeek e t
        = { res := .error notInitializedError, engine := e, events := [], calls := [] }) ∧
      (∀ v, avplaySetVolume e v
        = { res := .error notInitializedError, engine := e, events := [], calls := [] }) ∧
      (∀ b, avplaySetMuted e b
        = { res := .error notInitializedError, engine := e, events := [], calls := [] }) ∧
      (∀ url p d, avplayLoad e url p d
        = { res := .error notInitializedError, engine := e, events := [], calls := [] }) ∧
      (∀ tid, (avplaySetAudioTrack e tid).res = .ok ()) ∧
      (∀ tid, (avplaySetSubtitleTrack e tid).res = .ok ()) ∧
      (∀ b, (avplayEnableAdaptiveBitrate e b).res = .ok ()) ∧
      (avplayDestroy e).res = .ok () ∧
      avplayGetState e = e.state ∧
      avplayGetVolume e = e.volume) ∧
    (∀ e : ShakaEngine, e.initialized = false →
      (∀ v, shakaSetVolume e v
        = { res := .error notInitializedError, engine := e, events := [] }) ∧
      (∀ tid, shakaSetAudioTrack e tid
        = { res := .error notInitializedError, engine := e, events := [] }) ∧
      (∀ tid, shakaSetSubtitleTrack e tid
        = { res := .error notInitializedError, engine := e, events := [] }) ∧
      (∀ q, shakaSetQuality e q
        = { res := .error notInitializedError, engine := e, events := [] }) ∧
      (∀ b, shakaEnableAdaptiveBitrate e b
        = { res := .error notInitializedError, engine := e, events := [] }) ∧
      shakaGetState e = e.state ∧
      (e.hasVideoElement = false →
        shakaGetVolume e = 0 ∧ shakaGetCurrentTime e = 0)) ∧
    notInitializedError.type = .unknown ∧
    notInitializedError.fatal = false := by
  refine ⟨?_, ?_, rfl, rfl⟩
  · intro e he
    refine ⟨?_, ?_, ?_, ?_, ?_, ?_, ?_, ?_, ?_, ?_, ?_, ?_, ?_⟩
    · simp [avplayPlay, he]
    · simp [avplayPause, he]
    · simp [avplayStop, he]
    · intro t; simp [avplaySeek, he]
    · intro v; simp [avplaySetVolume, he]
    · intro b; simp [avplaySetMuted, he]
    · intro url p d; simp [avplayLoad, he]
    · intro tid
      unfold avplaySetAudioTrack
      split <;> rfl
    · intro tid
      unfold avplaySetSubtitleTrack
      split <;> rfl
    · intro b
      unfold avplayEnableAdaptiveBitrate
      split <;> rfl
    · rfl
    · rfl
    · rfl
  · intro e he
    refine ⟨?_, ?_, ?_, ?_, ?_, rfl, ?_⟩
    · intro v; simp [shakaSetVolume, he]
    · intro tid; simp [shakaSetAudioTrack, he]
    · intro tid; simp [shakaSetSubtitleTrack, he]
    · intro q; simp [shakaSetQuality, he]
    · intro b; simp [shakaEnableAdaptiveBitrate, he]
    · intro hel
      exact ⟨by simp [shakaGetVolume, hel], by simp [shakaGetCurrentTime, hel]⟩

/-- Witness for C3 amended: a fresh embedded engine rejects play with the
unknown-kind error, and a fresh Shaka engine rejects setAudioTrack the same
way. -/
theorem uninitialized_guard_witness :
    avplayPlay
      { initialized := false, avplayPresent := false, native := .NONE
        state := .idle, currentTime := 0, duration := 0, volume := 1
        muted := false, timeTracking := false }
      = { res := .error notInitializedError
          engine :=
            { initialized := false, avplayPresent := false, native := .NONE
              state := .idle, currentTime := 0, duration := 0, volume := 1
              muted := false, timeTracking := false }
          events := [], calls := [] } ∧
    shakaSetAudioTrack
      { initialized := false, hasVideoElement := false, hasShakaPlayer := false
        state := .idle, currentTime := 0, volume := 1, muted := false } "0"
      = { res := .error notInitializedError
          engine :=
            { initialized := false, hasVideoElement := false, hasShakaPlayer := false
              state := .idle, currentTime := 0, volume := 1, muted := false }
          events := [] } :=
  ⟨(uninitialized_guard_amended.1
      { initialized := false, avplayPresent := false, native := .NONE
        state := .idle, currentTime := 0, duration := 0, volume := 1
        muted := false, timeTracking := false } rfl).1,
   ((uninitialized_guard_amended.2.1
      { initialized := false, hasVideoElement := false, hasShakaPlayer := false
        state := .idle, currentTime := 0, volume := 1, muted := false } rfl).2.1) "0"⟩
